import Mathlib

/-!
# ActionManager (src/agent/action_manager.js)

A shallow embedding of the `ActionManager` class.  The class is asynchronous
JavaScript: every method body runs without interruption from one `await` to the
next, so each such stretch of code is embedded as one function on the state
(named after the method it comes from), and the event loop is the function
`step` that picks the stretch an event wakes up.

Conventions of the embedding

* JavaScript strings that are measured or cut (`bot.output`, messages) are lists
  of characters (`Text`), one element per UTF-16 code unit; labels are `String`.
* A value that may be `null`/`undefined` is an `Option`.
* An action body (`actionFn`) is a callable compared by identity: a number.
  When a started body finishes, and how, is decided by the environment
  (events `bodyReturns`, `bodyThrows`).
* A thrown value is the text `err.toString()` gives, or `none` for a thrown
  `null`/`undefined`, on which that call throws (`Thrown`).
* Timeouts are whole numbers of minutes (`Int`).
* The agent (`this.agent`) is not part of this file.  What the class reads from
  it is either state (`bot.interrupt_code`, `bot.output`), an unknown method
  taken as a parameter (`AgentOps`), or an answer supplied with the event
  (`isIdle()`, `self_prompter.isActive()`).
-/

namespace Mindcraft

/-- Text that the code measures and slices. -/
abbrev Text := List Char

/-- A label: `null` is `none`. -/
abbrev Label := Option String

/-- An action body, compared by identity. -/
abbrev ActionFn := Nat

/-- The value a body throws, as the `catch` blocks see it: `some t` when
`err.toString()` returns `t`; `none` when the value is `null` or `undefined`, on
which `err.toString()` itself throws a `TypeError`. -/
abbrev Thrown := Option Text

/-- Entries of `this.taskStack`: `{label, actionFn, timestamp}`. -/
structure TaskEntry where
  label : Label
  actionFn : ActionFn
  timestamp : Int
deriving DecidableEq, Repr

/-- The fields the constructor sets (lines 4-13), `agent` apart.  `taskStack`
is the JavaScript array in index order: `push` appends at the end and `pop`
removes the last element. -/
structure ActionManager where
  executing : Bool
  currentActionLabel : Label
  currentActionFn : Option ActionFn
  timedout : Bool
  resume_func : Option ActionFn
  resume_name : Label
  taskStack : List TaskEntry
deriving DecidableEq, Repr

/-- The two fields of `agent.bot` the class reads and writes. -/
structure Bot where
  interrupt_code : Bool
  output : Text
deriving DecidableEq, Repr

/-- Methods of the agent whose code is outside this file. -/
structure AgentOps where
  clearBotLogs : Bot → Bot
  requestInterrupt : Bot → Bot

/-- The object every caller of run/resume gets back. -/
structure Result where
  success : Bool
  message : Option Text
  interrupted : Bool
  timedout : Bool
deriving DecidableEq, Repr

/-- Which method is suspended at `await actionFn()`. -/
inductive Caller where
  | executeAction
  | executeActionDirect
deriving DecidableEq, Repr

/-- A started action body that has not finished: the method awaiting it, the
body, and that method's local `TIMEOUT` handle (`none` when no timer was
armed). -/
structure Running where
  caller : Caller
  actionFn : ActionFn
  TIMEOUT : Option Nat
deriving DecidableEq, Repr

/-- An armed timer of `_startTimeout`: its handle and `TIMEOUT_MINS`. -/
structure Timer where
  handle : Nat
  mins : Int
deriving DecidableEq, Repr

/-- A call suspended inside `await this.stop()`.  `request` is the
`_executeAction` call that continues afterwards (`none` for the `stop()` of a
timeout callback); `polling` says whether `stop` entered its loop (and armed
the 10 s kill timer) or returned at once. -/
structure StopWait where
  request : Option (Label × Option ActionFn × Int)
  polling : Bool
deriving DecidableEq, Repr

/-- The whole state: the manager, the bot, and what the event loop holds:
started bodies, armed timeout timers, calls waiting in `stop()`, armed kill
timers of `stop()`, the popped tasks whose 1 s resume callback is pending, the
results resolved so far (in order), the number of calls that threw, the labels
logged by `_tryResumeFromStack` ("Attempting to resume previous task"), the
number of `idle` events emitted, the minutes recorded by `history.add`, and
whether `cleanKill` ended the process. -/
structure Sys where
  am : ActionManager
  bot : Bot
  running : List Running
  timers : List Timer
  nextHandle : Nat
  stopWaits : List StopWait
  killTimers : Nat
  scheduled : List TaskEntry
  results : List Result
  rejected : Nat
  resumeLog : List Label
  idleEmits : Nat
  history : List Int
  killed : Bool
deriving DecidableEq, Repr

/-- The constructor (lines 4-13). -/
def ActionManager.new : ActionManager :=
  { executing := false, currentActionLabel := some "", currentActionFn := none,
    timedout := false, resume_func := none, resume_name := some "", taskStack := [] }

/-- A fresh manager on a bot with no output and no interrupt. -/
def Sys.init : Sys :=
  { am := ActionManager.new, bot := { interrupt_code := false, output := [] },
    running := [], timers := [], nextHandle := 0, stopWaits := [], killTimers := 0,
    scheduled := [], results := [], rejected := 0, resumeLog := [], idleEmits := 0,
    history := [], killed := false }

/-- The constant `MAX_OUT` of `getBotOutputSummary`. -/
def MAX_OUT : Nat := 500

/-- Method `getBotOutputSummary` (lines 211-225): the new state and the returned
text. -/
def getBotOutputSummary (s : Sys) : Sys × Text :=
  if s.bot.interrupt_code && !s.am.timedout then (s, [])
  else
    let output := s.bot.output
    let output :=
      if output.length > MAX_OUT then
        "Action output is very long (".toList ++ (Nat.repr output.length).toList
          ++ " chars) and has been shortened.\n\n          First outputs:\n".toList
          ++ output.take (MAX_OUT / 2)
          ++ "\n...skipping many lines.\nFinal outputs:\n ".toList
          ++ output.drop (output.length - MAX_OUT / 2)
      else
        "Action output:\n".toList ++ output
    ({ s with bot := { s.bot with output := [] } }, output)

/-- Method `cancelResume` (lines 40-43). -/
def cancelResume (s : Sys) : Sys :=
  { s with am := { s.am with resume_func := none, resume_name := none } }

/-- Method `clearTaskStack` (lines 198-201). -/
def clearTaskStack (s : Sys) : Sys :=
  { s with am := { s.am with taskStack := [] } }

/-- The call `clearTimeout(TIMEOUT)`: an `undefined` handle and a handle that
is no longer armed do nothing. -/
def clearTimeout (s : Sys) (TIMEOUT : Option Nat) : Sys :=
  match TIMEOUT with
  | none => s
  | some h => { s with timers := s.timers.filter (fun t => t.handle != h) }

/-- Method `_startTimeout` (lines 227-234), the arming: a new timer, whose
handle is returned. -/
def _startTimeout (s : Sys) (TIMEOUT_MINS : Int) : Sys × Nat :=
  ({ s with timers := s.timers ++ [{ handle := s.nextHandle, mins := TIMEOUT_MINS }],
            nextHandle := s.nextHandle + 1 }, s.nextHandle)

/-- Method `stop` (lines 27-38) from its call to its first suspension.  When
nothing is executing it returns at once (the caller continues at the next
turn of the event loop); otherwise it arms the kill timer, requests the
interrupt and starts polling. -/
def stop (ops : AgentOps) (s : Sys) (request : Option (Label × Option ActionFn × Int)) : Sys :=
  if !s.am.executing then
    match request with
    | none => s
    | some _ => { s with stopWaits := s.stopWaits ++ [{ request := request, polling := false }] }
  else
    { s with killTimers := s.killTimers + 1,
             bot := ops.requestInterrupt s.bot,
             stopWaits := s.stopWaits ++ [{ request := request, polling := true }] }

/-- Method `_tryResumeFromStack` (lines 183-196), without the callback it
schedules: `isIdle` is the answer of `agent.isIdle()`. -/
def _tryResumeFromStack (s : Sys) (isIdle : Bool) : Sys :=
  if decide (s.am.taskStack.length > 0) && !s.am.executing && isIdle then
    match s.am.taskStack.getLast? with
    | none => s
    | some previousTask =>
      { s with am := { s.am with taskStack := s.am.taskStack.dropLast },
               resumeLog := s.resumeLog ++ [previousTask.label],
               scheduled := s.scheduled ++ [previousTask] }
  else s

/-- The `catch` block of `_executeAction` (lines 164-180).  In line 172
`this.getBotOutputSummary()` is evaluated first and `err.toString()` last: on a
thrown `null`/`undefined` that call throws out of the `catch`, so the rest of
the block does not run and the call of `runAction` throws. -/
def _executeAction_catch (ops : AgentOps) (s : Sys) (TIMEOUT : Option Nat) (err : Thrown) : Sys :=
  let s := { s with am := { s.am with executing := false, currentActionLabel := some "",
                                      currentActionFn := none } }
  let s := clearTimeout s TIMEOUT
  let s := cancelResume s
  let summary := (getBotOutputSummary s).2
  let s := (getBotOutputSummary s).1
  match err with
  | none => { s with rejected := s.rejected + 1 }
  | some text =>
    let message := summary ++ "!!Code threw exception!!\nError: ".toList ++ text
    let interrupted := s.bot.interrupt_code
    let s := { s with bot := ops.clearBotLogs s.bot }
    let s := if !interrupted then { s with idleEmits := s.idleEmits + 1 } else s
    { s with results := s.results ++
        [{ success := false, message := some message, interrupted := interrupted, timedout := false }] }

/-- The `try` block of `_executeAction` after `await actionFn()` returned
(lines 146-163). -/
def _executeAction_return (ops : AgentOps) (s : Sys) (TIMEOUT : Option Nat) (isIdle : Bool) : Sys :=
  let s := { s with am := { s.am with executing := false, currentActionLabel := some "",
                                      currentActionFn := none } }
  let s := clearTimeout s TIMEOUT
  let s := _tryResumeFromStack s isIdle
  let output := (getBotOutputSummary s).2
  let s := (getBotOutputSummary s).1
  let interrupted := s.bot.interrupt_code
  let timedout := s.am.timedout
  let s := { s with bot := ops.clearBotLogs s.bot }
  let s := if !interrupted then { s with idleEmits := s.idleEmits + 1 } else s
  { s with results := s.results ++
      [{ success := true, message := some output, interrupted := interrupted, timedout := timedout }] }

/-- Method `_executeAction` from `await this.stop()` to `await actionFn()`
(lines 134-144).  Calling a body that is `null` throws inside the `try`. -/
def _executeAction_install (ops : AgentOps) (s : Sys) (actionLabel : Label)
    (actionFn : Option ActionFn) (timeout : Int) : Sys :=
  let s := { s with bot := ops.clearBotLogs s.bot }
  let s := { s with am := { s.am with executing := true, currentActionLabel := actionLabel,
                                      currentActionFn := actionFn } }
  let TIMEOUT := if timeout > 0 then some (_startTimeout s timeout).2 else none
  let s := if timeout > 0 then (_startTimeout s timeout).1 else s
  match actionFn with
  | some f =>
    { s with running := s.running ++ [{ caller := Caller.executeAction, actionFn := f, TIMEOUT := TIMEOUT }] }
  | none => _executeAction_catch ops s TIMEOUT (some "TypeError: actionFn is not a function".toList)

/-- Method `_executeAction` from its call to `await this.stop()` (lines
114-132); `now` is `Date.now()`. -/
def _executeAction (ops : AgentOps) (s : Sys) (actionLabel : Label) (actionFn : Option ActionFn)
    (timeout : Int) (now : Int) : Sys :=
  let s :=
    match s.am.executing, s.am.currentActionFn with
    | true, some f =>
      { s with am := { s.am with taskStack := s.am.taskStack ++
          [{ label := s.am.currentActionLabel, actionFn := f, timestamp := now }] } }
    | _, _ => s
  stop ops s (some (actionLabel, actionFn, timeout))

/-- Method `_executeActionDirect` from its call to `await actionFn()` (lines
66-79). -/
def _executeActionDirect (s : Sys) (actionLabel : Label) (actionFn : ActionFn) (timeout : Int) : Sys :=
  let s := { s with am := { s.am with executing := true, currentActionLabel := actionLabel,
                                      currentActionFn := some actionFn } }
  let TIMEOUT := if timeout > 0 then some (_startTimeout s timeout).2 else none
  let s := if timeout > 0 then (_startTimeout s timeout).1 else s
  { s with running := s.running ++
      [{ caller := Caller.executeActionDirect, actionFn := actionFn, TIMEOUT := TIMEOUT }] }

/-- The `try` block of `_executeActionDirect` after `await actionFn()`
returned (lines 81-95), followed by the end of `_executeResume`, which awaits
it (lines 57-59). -/
def _executeActionDirect_return (ops : AgentOps) (s : Sys) (TIMEOUT : Option Nat) : Sys :=
  let s := { s with am := { s.am with executing := false, currentActionLabel := some "",
                                      currentActionFn := none } }
  let s := clearTimeout s TIMEOUT
  let output := (getBotOutputSummary s).2
  let s := (getBotOutputSummary s).1
  let interrupted := s.bot.interrupt_code
  let timedout := s.am.timedout
  let s := { s with bot := ops.clearBotLogs s.bot }
  let s := if !interrupted then { s with idleEmits := s.idleEmits + 1 } else s
  let res : Result :=
    { success := true, message := some output, interrupted := interrupted, timedout := timedout }
  let s := { s with am := { s.am with currentActionLabel := some "" } }
  let s := cancelResume s
  { s with results := s.results ++ [res] }

/-- The `catch` block of `_executeActionDirect` (lines 96-111), followed by the
end of `_executeResume` (lines 57-59).  On a thrown `null`/`undefined` the
`err.toString()` of line 103 throws out of the `catch` and through
`_executeResume`, whose lines 57-59 do not run. -/
def _executeActionDirect_catch (ops : AgentOps) (s : Sys) (TIMEOUT : Option Nat) (err : Thrown) : Sys :=
  let s := { s with am := { s.am with executing := false, currentActionLabel := some "",
                                      currentActionFn := none } }
  let s := clearTimeout s TIMEOUT
  let summary := (getBotOutputSummary s).2
  let s := (getBotOutputSummary s).1
  match err with
  | none => { s with rejected := s.rejected + 1 }
  | some text =>
    let message := summary ++ "!!Resume threw exception!!\nError: ".toList ++ text
    let interrupted := s.bot.interrupt_code
    let s := { s with bot := ops.clearBotLogs s.bot }
    let s := if !interrupted then { s with idleEmits := s.idleEmits + 1 } else s
    let res : Result :=
      { success := false, message := some message, interrupted := interrupted, timedout := false }
    let s := { s with am := { s.am with currentActionLabel := some "" } }
    let s := cancelResume s
    { s with results := s.results ++ [res] }

/-- The result of a declined resume (line 61). -/
def declined : Result :=
  { success := false, message := none, interrupted := false, timedout := false }

/-- Method `_executeResume` from its call to `await this._executeActionDirect`
or to its `else` return (lines 45-56, 60-62).  A failed `assert` throws out of
the call.  `isIdle` and `selfPrompting` are the answers of `agent.isIdle()` and
`agent.self_prompter.isActive()`. -/
def _executeResume (s : Sys) (actionLabel : Label) (actionFn : Option ActionFn) (timeout : Int)
    (isIdle selfPrompting : Bool) : Sys :=
  let new_resume := actionFn.isSome
  if new_resume && actionLabel.isNone then
    { s with am := { s.am with resume_func := actionFn }, rejected := s.rejected + 1 }
  else
    let s :=
      if new_resume then { s with am := { s.am with resume_func := actionFn, resume_name := actionLabel } }
      else s
    match s.am.resume_func with
    | some f =>
      if (isIdle || new_resume) && (!selfPrompting || new_resume) then
        let s := { s with am := { s.am with currentActionLabel := s.am.resume_name } }
        _executeActionDirect s s.am.resume_name f timeout
      else { s with results := s.results ++ [declined] }
    | none => { s with results := s.results ++ [declined] }

/-- Method `runAction` (lines 19-25); an omitted `timeout` is 10. -/
def runAction (ops : AgentOps) (s : Sys) (actionLabel : Label) (actionFn : Option ActionFn)
    (timeout : Option Int) (resume : Bool) (now : Int) (isIdle selfPrompting : Bool) : Sys :=
  let timeout := timeout.getD 10
  if resume then _executeResume s actionLabel actionFn timeout isIdle selfPrompting
  else _executeAction ops s actionLabel actionFn timeout now

/-- The expression `this.resume_name || 'resumed_action'` (line 16). -/
def resumeLabel (s : Sys) : Label :=
  match s.am.resume_name with
  | some n => if n = "" then some "resumed_action" else some n
  | none => some "resumed_action"

/-- The expression `timeout || 10` (line 16). -/
def resumeTimeout (timeout : Option Int) : Int :=
  match timeout with
  | some t => if t = 0 then 10 else t
  | none => 10

/-- Method `resumeAction` (lines 15-17).  `Date.now()` is not read on the
resume path. -/
def resumeAction (ops : AgentOps) (s : Sys) (actionFn : Option ActionFn) (timeout : Option Int)
    (isIdle selfPrompting : Bool) : Sys :=
  runAction ops s (resumeLabel s) (actionFn.orElse (fun _ => s.am.resume_func))
    (some (resumeTimeout timeout)) true 0 isIdle selfPrompting

/-- One record of `getTaskStackInfo`: `{label, timestamp, age}`. -/
structure TaskInfo where
  label : Label
  timestamp : Int
  age : Int
deriving DecidableEq, Repr

/-- The `map` of `getTaskStackInfo` from index `i` on. -/
def getTaskStackInfo.go (clock : Nat → Int) : Nat → List TaskEntry → List TaskInfo
  | _, [] => []
  | i, task :: rest =>
    { label := task.label, timestamp := task.timestamp, age := clock i - task.timestamp }
      :: getTaskStackInfo.go clock (i + 1) rest

/-- Method `getTaskStackInfo` (lines 203-209): the state after the call and the
returned array.  `clock i` is what `Date.now()` returns in the callback of the
entry at index `i`. -/
def getTaskStackInfo (clock : Nat → Int) (s : Sys) : Sys × List TaskInfo :=
  (s, getTaskStackInfo.go clock 0 s.am.taskStack)

/-- What can happen next: a call of a public method, or the event loop waking
up a suspended stretch of code.  Indices point into the lists of `Sys`. -/
inductive Event where
  | runAction (actionLabel : Label) (actionFn : Option ActionFn) (timeout : Option Int)
      (resume : Bool) (now : Int) (isIdle selfPrompting : Bool)
  | resumeAction (actionFn : Option ActionFn) (timeout : Option Int) (isIdle selfPrompting : Bool)
  | stop
  | cancelResume
  | clearTaskStack
  | stopWakes (i : Nat)
  | bodyReturns (i : Nat) (isIdle : Bool)
  | bodyThrows (i : Nat) (err : Thrown)
  | timeoutFires (handle : Nat)
  | resumeFires (i : Nat) (isIdle selfPrompting : Bool)
  | killFires
  | botOutput (t : Text)
deriving DecidableEq, Repr

/-- A call suspended in `stop()` wakes up (lines 32-37): a polling call that
still sees `executing` requests the interrupt again and keeps waiting;
otherwise `stop` returns and the `_executeAction` that awaited it goes on. -/
def stopWakes (ops : AgentOps) (s : Sys) (i : Nat) : Sys :=
  match s.stopWaits[i]? with
  | none => s
  | some w =>
    if w.polling && s.am.executing then { s with bot := ops.requestInterrupt s.bot }
    else
      let s := { s with stopWaits := s.stopWaits.eraseIdx i,
                        killTimers := if w.polling then s.killTimers - 1 else s.killTimers }
      match w.request with
      | none => s
      | some (actionLabel, actionFn, timeout) => _executeAction_install ops s actionLabel actionFn timeout

/-- A started body returns: the method awaiting it goes on. -/
def bodyReturns (ops : AgentOps) (s : Sys) (i : Nat) (isIdle : Bool) : Sys :=
  match s.running[i]? with
  | none => s
  | some r =>
    let s := { s with running := s.running.eraseIdx i }
    match r.caller with
    | Caller.executeAction => _executeAction_return ops s r.TIMEOUT isIdle
    | Caller.executeActionDirect => _executeActionDirect_return ops s r.TIMEOUT

/-- A started body throws: the `catch` of the method awaiting it runs. -/
def bodyThrows (ops : AgentOps) (s : Sys) (i : Nat) (err : Thrown) : Sys :=
  match s.running[i]? with
  | none => s
  | some r =>
    let s := { s with running := s.running.eraseIdx i }
    match r.caller with
    | Caller.executeAction => _executeAction_catch ops s r.TIMEOUT err
    | Caller.executeActionDirect => _executeActionDirect_catch ops s r.TIMEOUT err

/-- The callback of `_startTimeout` (lines 228-233) for an armed timer. -/
def timeoutFires (ops : AgentOps) (s : Sys) (handle : Nat) : Sys :=
  match s.timers.find? (fun t => t.handle == handle) with
  | none => s
  | some t =>
    let s := { s with timers := s.timers.filter (fun t => t.handle != handle) }
    let s := { s with am := { s.am with timedout := true } }
    let s := { s with history := s.history ++ [t.mins] }
    stop ops s none

/-- The callback scheduled by `_tryResumeFromStack` (lines 189-194) for a popped
task.  The callback and the `_executeResume` it calls run in one stretch, so
both read the same answer of `agent.isIdle()`. -/
def resumeFires (ops : AgentOps) (s : Sys) (i : Nat) (isIdle selfPrompting : Bool) : Sys :=
  match s.scheduled[i]? with
  | none => s
  | some previousTask =>
    let s := { s with scheduled := s.scheduled.eraseIdx i }
    if !s.am.executing && isIdle then
      runAction ops s previousTask.label (some previousTask.actionFn) none true 0 isIdle selfPrompting
    else s

/-- The kill timer of a `stop()` still polling fires (lines 29-31):
`agent.cleanKill` ends the process. -/
def killFires (s : Sys) : Sys :=
  if s.killTimers > 0 then { s with killed := true } else s

/-- One turn of the event loop.  After `cleanKill` nothing runs. -/
def step (ops : AgentOps) (s : Sys) (e : Event) : Sys :=
  if s.killed then s
  else
    match e with
    | Event.runAction actionLabel actionFn timeout resume now isIdle selfPrompting =>
      runAction ops s actionLabel actionFn timeout resume now isIdle selfPrompting
    | Event.resumeAction actionFn timeout isIdle selfPrompting =>
      resumeAction ops s actionFn timeout isIdle selfPrompting
    | Event.stop => stop ops s none
    | Event.cancelResume => cancelResume s
    | Event.clearTaskStack => clearTaskStack s
    | Event.stopWakes i => stopWakes ops s i
    | Event.bodyReturns i isIdle => bodyReturns ops s i isIdle
    | Event.bodyThrows i err => bodyThrows ops s i err
    | Event.timeoutFires handle => timeoutFires ops s handle
    | Event.resumeFires i isIdle selfPrompting => resumeFires ops s i isIdle selfPrompting
    | Event.killFires => killFires s
    | Event.botOutput t => { s with bot := { s.bot with output := s.bot.output ++ t } }

/-- A sequence of turns. -/
def run (ops : AgentOps) (s : Sys) (es : List Event) : Sys :=
  es.foldl (step ops) s

/-- An agent for the examples: `clearBotLogs` empties the output and lowers the
interrupt flag, `requestInterrupt` raises the flag. -/
def exampleOps : AgentOps :=
  { clearBotLogs := fun _ => { interrupt_code := false, output := [] },
    requestInterrupt := fun b => { b with interrupt_code := true } }

/-! ## States and traces of the examples -/

/-- Action `A` (body 1) was requested on a fresh manager and is running. -/
def runningA : Sys :=
  run exampleOps Sys.init
    [Event.runAction (some "A") (some 1) none false 100 true false, Event.stopWakes 0]

/-- While `A` runs, it prints `log`. -/
def runningAWithOutput : Sys :=
  step exampleOps runningA (Event.botOutput "log".toList)

/-- Two preemptions in a row: `A` runs, `B` is requested (at time 200) and `A`
stops by throwing, `C` is requested (at time 300) and `B` stops by throwing. -/
def preemptTwice : List Event :=
  [Event.runAction (some "A") (some 1) none false 100 true false, Event.stopWakes 0,
   Event.runAction (some "B") (some 2) none false 200 false false,
   Event.bodyThrows 0 (some "stopped".toList), Event.stopWakes 0,
   Event.runAction (some "C") (some 3) none false 300 false false,
   Event.bodyThrows 0 (some "stopped".toList), Event.stopWakes 0]

/-- After `preemptTwice`: `C` runs, `A` and `B` are on the stack. -/
def twoOnStack : Sys := run exampleOps Sys.init preemptTwice

/-- The running action returns with the agent idle, the resume callback fires
with the agent idle, and the resumed body returns with the agent idle. -/
def drain : List Event :=
  [Event.bodyReturns 0 true, Event.resumeFires 0 true false, Event.bodyReturns 0 true]

/-- Action `A` is run with a timeout of one minute, the timer fires, `A` returns
and the `stop()` of the timer ends; then `B` is run with a timeout of one minute
and returns before its timer fires. -/
def timeoutThenQuick : List Event :=
  [Event.runAction (some "A") (some 1) (some 1) false 100 true false, Event.stopWakes 0,
   Event.timeoutFires 0, Event.bodyReturns 0 false, Event.stopWakes 0,
   Event.runAction (some "B") (some 2) (some 1) false 200 true false, Event.stopWakes 0,
   Event.bodyReturns 0 false]

/-- A resume with the override body 7 was requested on a fresh manager: body 7
is running and the ResumeSlot holds it. -/
def resumedRunning : Sys :=
  step exampleOps Sys.init (Event.resumeAction (some 7) none true false)

/-- Action `A` runs, `B` is requested at time 200 with a timeout of one minute
and `A` stops by throwing, `B` is installed, and the timer of `B` fires while
`B` runs. -/
def timeoutWithStack : List Event :=
  [Event.runAction (some "A") (some 1) none false 100 true false, Event.stopWakes 0,
   Event.runAction (some "B") (some 2) (some 1) false 200 false false,
   Event.bodyThrows 0 (some "stopped".toList), Event.stopWakes 0,
   Event.timeoutFires 1]

/-- After `timeoutWithStack`: `B` runs, its timeout has fired, `A` is on the
stack. -/
def timedOutOnStack : Sys := run exampleOps Sys.init timeoutWithStack

/-- The slot invariant: while `executing` is set a body is recorded. -/
def SlotOk (s : Sys) : Prop := s.am.executing = true → s.am.currentActionFn.isSome = true

/-- While `A` runs it prints `log`, then its body throws `undefined`. -/
def throwsUndefined : Sys :=
  step exampleOps runningAWithOutput (Event.bodyThrows 0 none)

/-- The state of the example for a long buffer: 501 characters of output, no
interrupt. -/
def long501 : Sys :=
  { Sys.init with bot := { interrupt_code := false, output := List.replicate 501 'x' } }

/-- The state of the example for a cancelled action: `A` runs and prints
`partial`, then `stop()` is called.  The interrupt flag is up, no timeout has
fired, and the buffer holds `partial`. -/
def cancelledWithOutput : Sys :=
  run exampleOps Sys.init
    [Event.runAction (some "A") (some 1) none false 100 true false, Event.stopWakes 0,
     Event.botOutput "partial".toList, Event.stop]

/-! ## Output summarizer -/

/-- Outside the suppressed branch `getBotOutputSummary` empties the buffer and
returns one of the two forms. -/
theorem getBotOutputSummary_of_shown (s : Sys)
    (hc : (s.bot.interrupt_code && !s.am.timedout) = false) :
    getBotOutputSummary s =
      ({ s with bot := { s.bot with output := [] } },
        if s.bot.output.length > MAX_OUT then
          "Action output is very long (".toList ++ (Nat.repr s.bot.output.length).toList
            ++ " chars) and has been shortened.\n\n          First outputs:\n".toList
            ++ s.bot.output.take (MAX_OUT / 2)
            ++ "\n...skipping many lines.\nFinal outputs:\n ".toList
            ++ s.bot.output.drop (s.bot.output.length - MAX_OUT / 2)
        else "Action output:\n".toList ++ s.bot.output) := by
  unfold getBotOutputSummary
  rw [hc]
  rfl

/-- In the suppressed branch `getBotOutputSummary` returns before touching
anything. -/
theorem getBotOutputSummary_of_suppressed (s : Sys)
    (hc : (s.bot.interrupt_code && !s.am.timedout) = true) :
    getBotOutputSummary s = (s, []) := by
  unfold getBotOutputSummary
  rw [hc]
  rfl

/-- The summary never changes anything but `bot.output`. -/
theorem getBotOutputSummary_frame (s : Sys) :
    (getBotOutputSummary s).1 = s ∨
      (getBotOutputSummary s).1 = { s with bot := { s.bot with output := [] } } := by
  cases hc : (s.bot.interrupt_code && !s.am.timedout)
  · right; rw [getBotOutputSummary_of_shown s hc]
  · left; rw [getBotOutputSummary_of_suppressed s hc]

/-- C6: when output is not suppressed (no interrupt is active, or a timeout
occurred), a buffer of at most 500 characters is returned whole after the label
`Action output:\n`, and a longer buffer is returned as the notice with the
original length, the first 250 characters and the last 250 characters. -/
theorem getBotOutputSummary_threshold (s : Sys)
    (h : s.bot.interrupt_code = false ∨ s.am.timedout = true) :
    (s.bot.output.length ≤ 500 →
      (getBotOutputSummary s).2 = "Action output:\n".toList ++ s.bot.output) ∧
    (500 < s.bot.output.length →
      (getBotOutputSummary s).2 =
        "Action output is very long (".toList ++ (Nat.repr s.bot.output.length).toList
          ++ " chars) and has been shortened.\n\n          First outputs:\n".toList
          ++ s.bot.output.take 250
          ++ "\n...skipping many lines.\nFinal outputs:\n ".toList
          ++ s.bot.output.drop (s.bot.output.length - 250)
      ∧ (s.bot.output.take 250).length = 250
      ∧ (s.bot.output.drop (s.bot.output.length - 250)).length = 250
      ∧ s.bot.output.take 250 <+: s.bot.output
      ∧ s.bot.output.drop (s.bot.output.length - 250) <:+ s.bot.output) := by
  have hc : (s.bot.interrupt_code && !s.am.timedout) = false := by
    rcases h with h | h <;> simp [h]
  rw [getBotOutputSummary_of_shown s hc]
  constructor
  · intro hl
    have : ¬ (s.bot.output.length > MAX_OUT) := by unfold MAX_OUT; omega
    exact if_neg this
  · intro hl
    have : s.bot.output.length > MAX_OUT := by unfold MAX_OUT; omega
    refine ⟨if_pos this, ?_, ?_, List.take_prefix _ _, List.drop_suffix _ _⟩
    · rw [List.length_take]; omega
    · rw [List.length_drop]; omega

/-- C6 at a buffer of exactly 500 characters (returned whole) and at one of 501
characters (shortened). -/
theorem getBotOutputSummary_threshold_witness :
    (getBotOutputSummary
        { Sys.init with bot := { interrupt_code := false, output := List.replicate 500 'x' } }).2
      = "Action output:\n".toList ++ List.replicate 500 'x'
    ∧ (getBotOutputSummary long501).2 =
        "Action output is very long (".toList ++ (Nat.repr long501.bot.output.length).toList
          ++ " chars) and has been shortened.\n\n          First outputs:\n".toList
          ++ long501.bot.output.take 250
          ++ "\n...skipping many lines.\nFinal outputs:\n ".toList
          ++ long501.bot.output.drop (long501.bot.output.length - 250) :=
  ⟨(getBotOutputSummary_threshold
        { Sys.init with bot := { interrupt_code := false, output := List.replicate 500 'x' } }
        (Or.inl rfl)).1
      (by show (List.replicate 500 'x').length ≤ 500
          rw [List.length_replicate]),
   ((getBotOutputSummary_threshold long501 (Or.inl rfl)).2
      (by show 500 < (List.replicate 501 'x').length
          rw [List.length_replicate]; omega)).1⟩

/-- C7, at the failing input: with the interrupt flag up and no timeout,
`getBotOutputSummary` returns the empty string through its early return and the
buffer still holds `partial` afterwards; with the flag down the same buffer is
emptied. -/
theorem getBotOutputSummary_suppressed_keeps_buffer :
    cancelledWithOutput.bot = { interrupt_code := true, output := "partial".toList }
    ∧ cancelledWithOutput.am.timedout = false
    ∧ (getBotOutputSummary cancelledWithOutput).2 = []
    ∧ (getBotOutputSummary cancelledWithOutput).1.bot.output = "partial".toList
    ∧ (getBotOutputSummary cancelledWithOutput).1.bot.output ≠ []
    ∧ (getBotOutputSummary
        { cancelledWithOutput with bot := { interrupt_code := false, output := "partial".toList } }
        ).1.bot.output = [] := by
  decide

/-! ## Frame lemmas: what the small pieces leave alone -/

/-- The summary changes nothing but `bot.output`. -/
theorem getBotOutputSummary_fst (s : Sys) :
    (getBotOutputSummary s).1
      = { s with bot := { s.bot with output := (getBotOutputSummary s).1.bot.output } } := by
  rcases getBotOutputSummary_frame s with h | h <;> rw [h]

/-- The returned text depends on the bot and on `timedout` only. -/
theorem getBotOutputSummary_snd_congr (s t : Sys) (hb : s.bot = t.bot)
    (ht : s.am.timedout = t.am.timedout) :
    (getBotOutputSummary s).2 = (getBotOutputSummary t).2 := by
  unfold getBotOutputSummary
  rw [hb, ht]
  split <;> rfl

@[simp] theorem getBotOutputSummary_interrupt_code (s : Sys) :
    (getBotOutputSummary s).1.bot.interrupt_code = s.bot.interrupt_code := by
  rw [getBotOutputSummary_fst]

@[simp] theorem getBotOutputSummary_am (s : Sys) :
    (getBotOutputSummary s).1.am = s.am := by
  rw [getBotOutputSummary_fst]

@[simp] theorem getBotOutputSummary_running (s : Sys) :
    (getBotOutputSummary s).1.running = s.running := by
  rw [getBotOutputSummary_fst]

@[simp] theorem getBotOutputSummary_timers (s : Sys) :
    (getBotOutputSummary s).1.timers = s.timers := by
  rw [getBotOutputSummary_fst]

@[simp] theorem getBotOutputSummary_nextHandle (s : Sys) :
    (getBotOutputSummary s).1.nextHandle = s.nextHandle := by
  rw [getBotOutputSummary_fst]

@[simp] theorem getBotOutputSummary_stopWaits (s : Sys) :
    (getBotOutputSummary s).1.stopWaits = s.stopWaits := by
  rw [getBotOutputSummary_fst]

@[simp] theorem getBotOutputSummary_killTimers (s : Sys) :
    (getBotOutputSummary s).1.killTimers = s.killTimers := by
  rw [getBotOutputSummary_fst]

@[simp] theorem getBotOutputSummary_scheduled (s : Sys) :
    (getBotOutputSummary s).1.scheduled = s.scheduled := by
  rw [getBotOutputSummary_fst]

@[simp] theorem getBotOutputSummary_results (s : Sys) :
    (getBotOutputSummary s).1.results = s.results := by
  rw [getBotOutputSummary_fst]

@[simp] theorem getBotOutputSummary_rejected (s : Sys) :
    (getBotOutputSummary s).1.rejected = s.rejected := by
  rw [getBotOutputSummary_fst]

@[simp] theorem getBotOutputSummary_resumeLog (s : Sys) :
    (getBotOutputSummary s).1.resumeLog = s.resumeLog := by
  rw [getBotOutputSummary_fst]

@[simp] theorem getBotOutputSummary_idleEmits (s : Sys) :
    (getBotOutputSummary s).1.idleEmits = s.idleEmits := by
  rw [getBotOutputSummary_fst]

@[simp] theorem getBotOutputSummary_history (s : Sys) :
    (getBotOutputSummary s).1.history = s.history := by
  rw [getBotOutputSummary_fst]

@[simp] theorem getBotOutputSummary_killed (s : Sys) :
    (getBotOutputSummary s).1.killed = s.killed := by
  rw [getBotOutputSummary_fst]

@[simp] theorem clearTimeout_am (s : Sys) (TIMEOUT : Option Nat) :
    (clearTimeout s TIMEOUT).am = s.am := by
  unfold clearTimeout; split <;> rfl

@[simp] theorem clearTimeout_running (s : Sys) (TIMEOUT : Option Nat) :
    (clearTimeout s TIMEOUT).running = s.running := by
  unfold clearTimeout; split <;> rfl

@[simp] theorem clearTimeout_nextHandle (s : Sys) (TIMEOUT : Option Nat) :
    (clearTimeout s TIMEOUT).nextHandle = s.nextHandle := by
  unfold clearTimeout; split <;> rfl

@[simp] theorem clearTimeout_stopWaits (s : Sys) (TIMEOUT : Option Nat) :
    (clearTimeout s TIMEOUT).stopWaits = s.stopWaits := by
  unfold clearTimeout; split <;> rfl

@[simp] theorem clearTimeout_killTimers (s : Sys) (TIMEOUT : Option Nat) :
    (clearTimeout s TIMEOUT).killTimers = s.killTimers := by
  unfold clearTimeout; split <;> rfl

@[simp] theorem clearTimeout_scheduled (s : Sys) (TIMEOUT : Option Nat) :
    (clearTimeout s TIMEOUT).scheduled = s.scheduled := by
  unfold clearTimeout; split <;> rfl

@[simp] theorem clearTimeout_results (s : Sys) (TIMEOUT : Option Nat) :
    (clearTimeout s TIMEOUT).results = s.results := by
  unfold clearTimeout; split <;> rfl

@[simp] theorem clearTimeout_rejected (s : Sys) (TIMEOUT : Option Nat) :
    (clearTimeout s TIMEOUT).rejected = s.rejected := by
  unfold clearTimeout; split <;> rfl

@[simp] theorem clearTimeout_resumeLog (s : Sys) (TIMEOUT : Option Nat) :
    (clearTimeout s TIMEOUT).resumeLog = s.resumeLog := by
  unfold clearTimeout; split <;> rfl

@[simp] theorem clearTimeout_idleEmits (s : Sys) (TIMEOUT : Option Nat) :
    (clearTimeout s TIMEOUT).idleEmits = s.idleEmits := by
  unfold clearTimeout; split <;> rfl

@[simp] theorem clearTimeout_history (s : Sys) (TIMEOUT : Option Nat) :
    (clearTimeout s TIMEOUT).history = s.history := by
  unfold clearTimeout; split <;> rfl

@[simp] theorem clearTimeout_killed (s : Sys) (TIMEOUT : Option Nat) :
    (clearTimeout s TIMEOUT).killed = s.killed := by
  unfold clearTimeout; split <;> rfl

@[simp] theorem clearTimeout_bot (s : Sys) (TIMEOUT : Option Nat) :
    (clearTimeout s TIMEOUT).bot = s.bot := by
  unfold clearTimeout; split <;> rfl

@[simp] theorem stop_am (ops : AgentOps) (s : Sys)
    (request : Option (Label × Option ActionFn × Int)) :
    (stop ops s request).am = s.am := by
  unfold stop; split
  · split <;> rfl
  · rfl

@[simp] theorem stop_running (ops : AgentOps) (s : Sys)
    (request : Option (Label × Option ActionFn × Int)) :
    (stop ops s request).running = s.running := by
  unfold stop; split
  · split <;> rfl
  · rfl

@[simp] theorem stop_timers (ops : AgentOps) (s : Sys)
    (request : Option (Label × Option ActionFn × Int)) :
    (stop ops s request).timers = s.timers := by
  unfold stop; split
  · split <;> rfl
  · rfl

@[simp] theorem stop_nextHandle (ops : AgentOps) (s : Sys)
    (request : Option (Label × Option ActionFn × Int)) :
    (stop ops s request).nextHandle = s.nextHandle := by
  unfold stop; split
  · split <;> rfl
  · rfl

@[simp] theorem stop_scheduled (ops : AgentOps) (s : Sys)
    (request : Option (Label × Option ActionFn × Int)) :
    (stop ops s request).scheduled = s.scheduled := by
  unfold stop; split
  · split <;> rfl
  · rfl

@[simp] theorem stop_results (ops : AgentOps) (s : Sys)
    (request : Option (Label × Option ActionFn × Int)) :
    (stop ops s request).results = s.results := by
  unfold stop; split
  · split <;> rfl
  · rfl

@[simp] theorem stop_rejected (ops : AgentOps) (s : Sys)
    (request : Option (Label × Option ActionFn × Int)) :
    (stop ops s request).rejected = s.rejected := by
  unfold stop; split
  · split <;> rfl
  · rfl

@[simp] theorem stop_resumeLog (ops : AgentOps) (s : Sys)
    (request : Option (Label × Option ActionFn × Int)) :
    (stop ops s request).resumeLog = s.resumeLog := by
  unfold stop; split
  · split <;> rfl
  · rfl

@[simp] theorem stop_idleEmits (ops : AgentOps) (s : Sys)
    (request : Option (Label × Option ActionFn × Int)) :
    (stop ops s request).idleEmits = s.idleEmits := by
  unfold stop; split
  · split <;> rfl
  · rfl

@[simp] theorem stop_history (ops : AgentOps) (s : Sys)
    (request : Option (Label × Option ActionFn × Int)) :
    (stop ops s request).history = s.history := by
  unfold stop; split
  · split <;> rfl
  · rfl

@[simp] theorem stop_killed (ops : AgentOps) (s : Sys)
    (request : Option (Label × Option ActionFn × Int)) :
    (stop ops s request).killed = s.killed := by
  unfold stop; split
  · split <;> rfl
  · rfl

theorem _executeActionDirect_taskStack (s : Sys) (l f t) :
    (_executeActionDirect s l f t).am.taskStack = s.am.taskStack := by
  unfold _executeActionDirect
  split <;> rfl

theorem _executeResume_taskStack (s : Sys) (l f t i p) :
    (_executeResume s l f t i p).am.taskStack = s.am.taskStack := by
  unfold _executeResume
  simp only []
  split
  · rfl
  · split
    · split
      · rw [_executeActionDirect_taskStack]; split <;> rfl
      · split <;> rfl
    · split <;> rfl

/-! ## Preemption stack: push -/

/-- The push of `_executeAction`: a request that finds the slot occupied leaves
the stack with one more entry at the end. -/
theorem runAction_taskStack_of_occupied (ops : AgentOps) (s : Sys) (actionLabel : Label)
    (actionFn : Option ActionFn) (timeout : Option Int) (now : Int)
    (isIdle selfPrompting : Bool) (f : ActionFn)
    (he : s.am.executing = true) (hf : s.am.currentActionFn = some f) :
    (runAction ops s actionLabel actionFn timeout false now isIdle selfPrompting).am.taskStack
      = s.am.taskStack ++ [{ label := s.am.currentActionLabel, actionFn := f, timestamp := now }] := by
  simp [runAction, _executeAction, he, hf]

/-- C2: a non-resume `runAction` that arrives while the slot is occupied leaves
the stack as it was plus one entry at the end (where `pop` takes), holding the
slot's label, its body and the current time; one that arrives while nothing is
executing pushes nothing; and the resume path (`runAction` with `resume`,
`resumeAction`, and the completion of a resumed body) leaves the stack as it
was. -/
theorem runAction_pushes_displaced (ops : AgentOps) (s : Sys) (actionLabel : Label)
    (actionFn : Option ActionFn) (timeout : Option Int) (now : Int)
    (isIdle selfPrompting : Bool) :
    (∀ f, s.am.executing = true → s.am.currentActionFn = some f →
        (runAction ops s actionLabel actionFn timeout false now isIdle selfPrompting).am.taskStack
          = s.am.taskStack ++ [{ label := s.am.currentActionLabel, actionFn := f, timestamp := now }])
    ∧ (s.am.executing = false →
        (runAction ops s actionLabel actionFn timeout false now isIdle selfPrompting).am.taskStack
          = s.am.taskStack)
    ∧ (runAction ops s actionLabel actionFn timeout true now isIdle selfPrompting).am.taskStack
          = s.am.taskStack
    ∧ (∀ fn t, (resumeAction ops s fn t isIdle selfPrompting).am.taskStack = s.am.taskStack)
    ∧ (∀ TIMEOUT, (_executeActionDirect_return ops s TIMEOUT).am.taskStack = s.am.taskStack)
    ∧ (∀ TIMEOUT err,
        (_executeActionDirect_catch ops s TIMEOUT err).am.taskStack = s.am.taskStack) := by
  refine ⟨?_, ?_, ?_, ?_, ?_, ?_⟩
  · intro f he hf
    exact runAction_taskStack_of_occupied ops s actionLabel actionFn timeout now isIdle
      selfPrompting f he hf
  · intro he
    simp [runAction, _executeAction, he]
  · simp [runAction, _executeResume_taskStack]
  · intro fn t
    simp [resumeAction, runAction, _executeResume_taskStack]
  · intro T
    unfold _executeActionDirect_return
    simp [cancelResume]
    split <;> simp
  · intro T err
    unfold _executeActionDirect_catch
    cases err with
    | none => simp
    | some text =>
      simp [cancelResume]
      split <;> simp

/-- C2 at a concrete request: `B` arrives at time 200 while `A` runs, and on a
fresh manager. -/
theorem runAction_pushes_displaced_witness :
    (runAction exampleOps runningA (some "B") (some 2) none false 200 false false).am.taskStack
        = runningA.am.taskStack ++ [{ label := runningA.am.currentActionLabel, actionFn := 1, timestamp := 200 }]
    ∧ (runAction exampleOps Sys.init (some "B") (some 2) none false 200 false false).am.taskStack
        = Sys.init.am.taskStack :=
  ⟨(runAction_pushes_displaced exampleOps runningA (some "B") (some 2) none 200 false false).1
      1 (by decide) (by decide),
   (runAction_pushes_displaced exampleOps Sys.init (some "B") (some 2) none 200 false false).2.1
      (by decide)⟩

/-! ## Failure of an action body -/

/-- C10: when the body of a non-resume `runAction` throws `err`, the call does
not throw: it resolves to a Result with `success = false`, `timedout = false`
and the message `getBotOutputSummary() + '!!Code threw exception!!\nError: ' +
err`; afterwards `executing` is false, the label is the empty string, no body
is recorded, and the ResumeSlot is empty. -/
theorem runAction_body_throws (ops : AgentOps) (s : Sys) (i : Nat) (r : Running) (err : Text)
    (hk : s.killed = false) (hr : s.running[i]? = some r)
    (hc : r.caller = Caller.executeAction) :
    (step ops s (Event.bodyThrows i err)).results = s.results ++
        [{ success := false,
           message := some ((getBotOutputSummary s).2
              ++ "!!Code threw exception!!\nError: ".toList ++ err),
           interrupted := s.bot.interrupt_code,
           timedout := false }]
    ∧ (step ops s (Event.bodyThrows i err)).rejected = s.rejected
    ∧ (step ops s (Event.bodyThrows i err)).am.executing = false
    ∧ (step ops s (Event.bodyThrows i err)).am.currentActionLabel = some ""
    ∧ (step ops s (Event.bodyThrows i err)).am.currentActionFn = none
    ∧ (step ops s (Event.bodyThrows i err)).am.resume_func = none
    ∧ (step ops s (Event.bodyThrows i err)).am.resume_name = none := by
  have hstep : step ops s (Event.bodyThrows i err)
      = _executeAction_catch ops { s with running := s.running.eraseIdx i } r.TIMEOUT err := by
    simp [step, hk, bodyThrows, hr, hc]
  have hsum : (getBotOutputSummary (cancelResume (clearTimeout
        { s with running := s.running.eraseIdx i,
                 am := { s.am with executing := false, currentActionLabel := some "",
                                   currentActionFn := none } } r.TIMEOUT))).2
      = (getBotOutputSummary s).2 := by
    apply getBotOutputSummary_snd_congr <;> simp [cancelResume]
  rw [hstep]
  unfold _executeAction_catch
  simp only [hsum]
  cases hi : s.bot.interrupt_code <;> simp [cancelResume, hi]

/-- C10 at a concrete failure: `A` has printed `log` and throws `Error: boom`. -/
theorem runAction_body_throws_witness :
    (step exampleOps runningAWithOutput (Event.bodyThrows 0 "Error: boom".toList)).results
        = runningAWithOutput.results ++
          [{ success := false,
             message := some ((getBotOutputSummary runningAWithOutput).2
                ++ "!!Code threw exception!!\nError: ".toList ++ "Error: boom".toList),
             interrupted := runningAWithOutput.bot.interrupt_code,
             timedout := false }]
    ∧ (step exampleOps runningAWithOutput (Event.bodyThrows 0 "Error: boom".toList)).rejected
        = runningAWithOutput.rejected
    ∧ (step exampleOps runningAWithOutput (Event.bodyThrows 0 "Error: boom".toList)).am.executing
        = false
    ∧ (step exampleOps runningAWithOutput
        (Event.bodyThrows 0 "Error: boom".toList)).am.currentActionLabel = some ""
    ∧ (step exampleOps runningAWithOutput
        (Event.bodyThrows 0 "Error: boom".toList)).am.currentActionFn = none
    ∧ (step exampleOps runningAWithOutput
        (Event.bodyThrows 0 "Error: boom".toList)).am.resume_func = none
    ∧ (step exampleOps runningAWithOutput
        (Event.bodyThrows 0 "Error: boom".toList)).am.resume_name = none :=
  runAction_body_throws exampleOps runningAWithOutput 0
    { caller := Caller.executeAction, actionFn := 1, TIMEOUT := some 0 } "Error: boom".toList
    (by decide) (by decide) rfl

/-! ## Preemption stack: pop and auto-resume -/

/-- With the slot free and the agent idle, `_tryResumeFromStack` pops the last
entry of the array, logs it and schedules it. -/
theorem _tryResumeFromStack_pop (s : Sys) (rest : List TaskEntry) (top : TaskEntry)
    (hs : s.am.taskStack = rest ++ [top]) (he : s.am.executing = false) :
    _tryResumeFromStack s true
      = { s with am := { s.am with taskStack := rest },
                 resumeLog := s.resumeLog ++ [top.label],
                 scheduled := s.scheduled ++ [top] } := by
  unfold _tryResumeFromStack
  simp [hs, he]

/-- The normal end of a non-resume action, agent idle, pops the top entry. -/
theorem _executeAction_return_pop (ops : AgentOps) (s : Sys) (TIMEOUT : Option Nat)
    (rest : List TaskEntry) (top : TaskEntry) (hs : s.am.taskStack = rest ++ [top]) :
    (_executeAction_return ops s TIMEOUT true).am
        = { s.am with executing := false, currentActionLabel := some "", currentActionFn := none,
                      taskStack := rest }
    ∧ (_executeAction_return ops s TIMEOUT true).scheduled = s.scheduled ++ [top]
    ∧ (_executeAction_return ops s TIMEOUT true).resumeLog = s.resumeLog ++ [top.label]
    ∧ (_executeAction_return ops s TIMEOUT true).running = s.running
    ∧ (_executeAction_return ops s TIMEOUT true).killed = s.killed
    ∧ (_executeAction_return ops s TIMEOUT true).nextHandle = s.nextHandle
    ∧ (_executeAction_return ops s TIMEOUT true).results.length = s.results.length + 1 := by
  unfold _executeAction_return
  simp only []
  rw [_tryResumeFromStack_pop _ rest top (by simp [hs]) (by simp)]
  refine ⟨?_, ?_, ?_, ?_, ?_, ?_, ?_⟩ <;> (split <;> simp)


/-- The resume callback of a popped task with a label, slot free and agent idle,
registers the task in the ResumeSlot and starts its body directly. -/
theorem resumeFires_runs (ops : AgentOps) (s : Sys) (top : TaskEntry) (name : String)
    (selfPrompting : Bool) (hsch : s.scheduled = [top]) (he : s.am.executing = false)
    (hl : top.label = some name) :
    resumeFires ops s 0 true selfPrompting
      = { s with scheduled := [],
                 am := { s.am with executing := true, currentActionLabel := some name,
                                   currentActionFn := some top.actionFn,
                                   resume_func := some top.actionFn, resume_name := some name },
                 timers := s.timers ++ [{ handle := s.nextHandle, mins := 10 }],
                 nextHandle := s.nextHandle + 1,
                 running := s.running ++
                   [{ caller := Caller.executeActionDirect, actionFn := top.actionFn,
                      TIMEOUT := some s.nextHandle }] } := by
  simp [resumeFires, hsch, he, runAction, _executeResume, hl, _executeActionDirect, _startTimeout]

@[simp] theorem _executeActionDirect_return_am (ops : AgentOps) (s : Sys) (TIMEOUT : Option Nat) :
    (_executeActionDirect_return ops s TIMEOUT).am
      = { s.am with executing := false, currentActionLabel := some "", currentActionFn := none,
                    resume_func := none, resume_name := none } := by
  unfold _executeActionDirect_return
  simp only [cancelResume]
  split <;> simp

@[simp] theorem _executeActionDirect_return_scheduled (ops : AgentOps) (s : Sys) (TIMEOUT : Option Nat) :
    (_executeActionDirect_return ops s TIMEOUT).scheduled = s.scheduled := by
  unfold _executeActionDirect_return
  simp only [cancelResume]
  split <;> simp

@[simp] theorem _executeActionDirect_return_resumeLog (ops : AgentOps) (s : Sys) (TIMEOUT : Option Nat) :
    (_executeActionDirect_return ops s TIMEOUT).resumeLog = s.resumeLog := by
  unfold _executeActionDirect_return
  simp only [cancelResume]
  split <;> simp

@[simp] theorem _executeActionDirect_return_running (ops : AgentOps) (s : Sys) (TIMEOUT : Option Nat) :
    (_executeActionDirect_return ops s TIMEOUT).running = s.running := by
  unfold _executeActionDirect_return
  simp only [cancelResume]
  split <;> simp

@[simp] theorem _executeActionDirect_return_killed (ops : AgentOps) (s : Sys) (TIMEOUT : Option Nat) :
    (_executeActionDirect_return ops s TIMEOUT).killed = s.killed := by
  unfold _executeActionDirect_return
  simp only [cancelResume]
  split <;> simp

@[simp] theorem _executeActionDirect_return_results_length (ops : AgentOps) (s : Sys)
    (TIMEOUT : Option Nat) :
    (_executeActionDirect_return ops s TIMEOUT).results.length = s.results.length + 1 := by
  unfold _executeActionDirect_return
  simp only [cancelResume]
  split <;> simp

/-- C3 (amended): with entries `rest ++ [top]` on the stack, when the running
non-resume action returns while the agent is idle, exactly the top entry is
popped, logged as a resume attempt and scheduled; when the callback fires (slot
free, agent idle) the popped body runs through the resume path; and when that
body returns nothing further is popped: the stack is `rest`, the log holds the
one attempt, nothing is scheduled or running, and two Results were added. -/
theorem completion_resumes_top_only (ops : AgentOps) (s : Sys) (r : Running)
    (rest : List TaskEntry) (top : TaskEntry) (name : String) (isIdle selfPrompting : Bool)
    (hk : s.killed = false) (hr : s.running = [r]) (hc : r.caller = Caller.executeAction)
    (hs : s.am.taskStack = rest ++ [top]) (hl : top.label = some name)
    (hsch : s.scheduled = []) :
    (step ops s (Event.bodyReturns 0 true)).am.taskStack = rest
    ∧ (step ops s (Event.bodyReturns 0 true)).scheduled = [top]
    ∧ (step ops s (Event.bodyReturns 0 true)).resumeLog = s.resumeLog ++ [top.label]
    ∧ (run ops s [Event.bodyReturns 0 true, Event.resumeFires 0 true selfPrompting]).running
        = [{ caller := Caller.executeActionDirect, actionFn := top.actionFn,
             TIMEOUT := some s.nextHandle }]
    ∧ (run ops s [Event.bodyReturns 0 true, Event.resumeFires 0 true selfPrompting]).am.taskStack
        = rest
    ∧ (run ops s [Event.bodyReturns 0 true, Event.resumeFires 0 true selfPrompting,
          Event.bodyReturns 0 isIdle]).am.taskStack = rest
    ∧ (run ops s [Event.bodyReturns 0 true, Event.resumeFires 0 true selfPrompting,
          Event.bodyReturns 0 isIdle]).resumeLog = s.resumeLog ++ [top.label]
    ∧ (run ops s [Event.bodyReturns 0 true, Event.resumeFires 0 true selfPrompting,
          Event.bodyReturns 0 isIdle]).scheduled = []
    ∧ (run ops s [Event.bodyReturns 0 true, Event.resumeFires 0 true selfPrompting,
          Event.bodyReturns 0 isIdle]).running = []
    ∧ (run ops s [Event.bodyReturns 0 true, Event.resumeFires 0 true selfPrompting,
          Event.bodyReturns 0 isIdle]).results.length = s.results.length + 2 := by
  -- first turn: the running action returns
  have h1 : step ops s (Event.bodyReturns 0 true)
      = _executeAction_return ops { s with running := [] } r.TIMEOUT true := by
    simp [step, hk, bodyReturns, hr, hc]
  have key := _executeAction_return_pop ops { s with running := [] } r.TIMEOUT rest top hs
  rw [← h1] at key
  simp only [hsch, List.nil_append, hk] at key
  obtain ⟨a1, b1, c1, d1, e1, f1, g1⟩ := key
  simp only [run, List.foldl]
  generalize step ops s (Event.bodyReturns 0 true) = s1 at *
  -- second turn: the resume callback fires
  have h2 : step ops s1 (Event.resumeFires 0 true selfPrompting)
      = resumeFires ops s1 0 true selfPrompting := by
    simp [step, e1]
  rw [resumeFires_runs ops s1 top name selfPrompting b1 (by rw [a1]) hl] at h2
  -- third turn: the resumed body returns
  have h3 : ∀ s2, s2 = step ops s1 (Event.resumeFires 0 true selfPrompting) →
      step ops s2 (Event.bodyReturns 0 isIdle)
        = _executeActionDirect_return ops { s2 with running := [] } (some s.nextHandle) := by
    intro s2 hs2
    rw [h2] at hs2
    simp [step, hs2, e1, bodyReturns, d1, f1]
  refine ⟨by rw [a1], b1, c1, ?_, ?_, ?_, ?_, ?_, ?_, ?_⟩
  · simp [h2, d1, f1]
  · simp [h2, a1]
  all_goals
    rw [h3 _ rfl, h2]
    simp [a1, c1, g1]


/-- C3 at `twoOnStack`: `C` returns, `B` (the top) is resumed and returns, `A`
stays on the stack. -/
theorem completion_resumes_top_only_witness :
    (step exampleOps twoOnStack (Event.bodyReturns 0 true)).am.taskStack
        = [{ label := some "A", actionFn := 1, timestamp := 200 }]
    ∧ (step exampleOps twoOnStack (Event.bodyReturns 0 true)).scheduled
        = [{ label := some "B", actionFn := 2, timestamp := 300 }]
    ∧ (run exampleOps twoOnStack
        [Event.bodyReturns 0 true, Event.resumeFires 0 true false, Event.bodyReturns 0 true]).resumeLog
        = twoOnStack.resumeLog ++ [some "B"]
    ∧ (run exampleOps twoOnStack
        [Event.bodyReturns 0 true, Event.resumeFires 0 true false, Event.bodyReturns 0 true]
        ).results.length = twoOnStack.results.length + 2 :=
  have h := completion_resumes_top_only exampleOps twoOnStack
    { caller := Caller.executeAction, actionFn := 3, TIMEOUT := some 2 }
    [{ label := some "A", actionFn := 1, timestamp := 200 }]
    { label := some "B", actionFn := 2, timestamp := 300 } "B" true false
    (by decide) (by decide) rfl (by decide) rfl (by decide)
  ⟨h.1, h.2.1, h.2.2.2.2.2.2.1, h.2.2.2.2.2.2.2.2.2⟩

/-- When nothing is running, waiting, armed or scheduled, no event of the event
loop changes the state: only a new call does. -/
theorem quiescent_stuck (ops : AgentOps) (s : Sys) (hr : s.running = []) (hw : s.stopWaits = [])
    (ht : s.timers = []) (hs : s.scheduled = []) (hkt : s.killTimers = 0)
    (i : Nat) (a b : Bool) (err : Thrown) :
    step ops s (Event.stopWakes i) = s
    ∧ step ops s (Event.bodyReturns i a) = s
    ∧ step ops s (Event.bodyThrows i err) = s
    ∧ step ops s (Event.timeoutFires i) = s
    ∧ step ops s (Event.resumeFires i a b) = s
    ∧ step ops s Event.killFires = s := by
  simp [step, stopWakes, bodyReturns, bodyThrows, timeoutFires, resumeFires, killFires,
    hr, hw, ht, hs, hkt]

/-- C3, counterexample: after two preemptions (`A` then `B` pushed, no resume
attempt so far) the manager is left to drain: `C` returns, the callback fires,
the resumed `B` returns.  Nothing is then running, waiting, armed or scheduled,
yet there was one auto-resume attempt, not two, and `A` is still on the
stack. -/
theorem two_pushed_one_resume_attempt :
    twoOnStack.am.taskStack
        = [{ label := some "A", actionFn := 1, timestamp := 200 },
           { label := some "B", actionFn := 2, timestamp := 300 }]
    ∧ twoOnStack.resumeLog = []
    ∧ (run exampleOps twoOnStack drain).resumeLog = [some "B"]
    ∧ (run exampleOps twoOnStack drain).resumeLog.length ≠ 2
    ∧ (run exampleOps twoOnStack drain).am.taskStack
        = [{ label := some "A", actionFn := 1, timestamp := 200 }]
    ∧ (run exampleOps twoOnStack drain).running = []
    ∧ (run exampleOps twoOnStack drain).stopWaits = []
    ∧ (run exampleOps twoOnStack drain).timers = []
    ∧ (run exampleOps twoOnStack drain).scheduled = []
    ∧ (run exampleOps twoOnStack drain).killTimers = 0
    ∧ (run exampleOps twoOnStack drain).killed = false := by
  decide

/-! ## Preemption stack: snapshot -/

/-- The record at index `i` of the map started at clock index `k`. -/
theorem getTaskStackInfo_go_getElem? (clock : Nat → Int) (l : List TaskEntry) (k i : Nat) :
    (getTaskStackInfo.go clock k l)[i]?
      = (l[i]?).map (fun task =>
          { label := task.label, timestamp := task.timestamp,
            age := clock (k + i) - task.timestamp }) := by
  induction l generalizing k i with
  | nil => simp [getTaskStackInfo.go]
  | cons t rest ih =>
    cases i with
    | zero => simp [getTaskStackInfo.go]
    | succ j =>
      simp only [getTaskStackInfo.go, List.getElem?_cons_succ, ih]
      rw [show k + 1 + j = k + (j + 1) by omega]

/-- The map keeps the length. -/
theorem getTaskStackInfo_go_length (clock : Nat → Int) (l : List TaskEntry) (k : Nat) :
    (getTaskStackInfo.go clock k l).length = l.length := by
  induction l generalizing k with
  | nil => rfl
  | cons t rest ih => simp [getTaskStackInfo.go, ih]

/-- The record of an entry appended to the array is appended to the result. -/
theorem getTaskStackInfo_go_append (clock : Nat → Int) (l : List TaskEntry) (e : TaskEntry)
    (k : Nat) :
    getTaskStackInfo.go clock k (l ++ [e])
      = getTaskStackInfo.go clock k l
          ++ [{ label := e.label, timestamp := e.timestamp,
                age := clock (k + l.length) - e.timestamp }] := by
  induction l generalizing k with
  | nil => simp [getTaskStackInfo.go]
  | cons t rest ih =>
    show _ :: getTaskStackInfo.go clock (k + 1) (rest ++ [e]) = _ :: (_ ++ _)
    rw [ih, List.length_cons, show k + 1 + rest.length = k + (rest.length + 1) by omega]

/-- C8 (amended): `getTaskStackInfo` leaves the state unchanged and returns one
record per stack entry, in array order: the record at index `i` is
`{label, timestamp, age}` of the entry at index `i`, with `age` the clock read
for that record minus the timestamp; an entry pushed by a preempting request
comes last, so the oldest-pushed entry is first and the most recently pushed one
last. -/
theorem getTaskStackInfo_array_order (clock : Nat → Int) (s : Sys) :
    (getTaskStackInfo clock s).1 = s
    ∧ (getTaskStackInfo clock s).2.length = s.am.taskStack.length
    ∧ (∀ i : Nat, (getTaskStackInfo clock s).2[i]?
        = (s.am.taskStack[i]?).map (fun task =>
            ({ label := task.label, timestamp := task.timestamp,
               age := clock i - task.timestamp } : TaskInfo)))
    ∧ (∀ ops actionLabel actionFn timeout now isIdle selfPrompting f,
        s.am.executing = true → s.am.currentActionFn = some f →
        (getTaskStackInfo clock
            (runAction ops s actionLabel actionFn timeout false now isIdle selfPrompting)).2
          = (getTaskStackInfo clock s).2
              ++ [({ label := s.am.currentActionLabel, timestamp := now,
                     age := clock s.am.taskStack.length - now } : TaskInfo)]) := by
  refine ⟨rfl, getTaskStackInfo_go_length _ _ _, ?_, ?_⟩
  · intro i
    simp [getTaskStackInfo, getTaskStackInfo_go_getElem?]
  · intro ops actionLabel actionFn timeout now isIdle selfPrompting f he hf
    simp only [getTaskStackInfo]
    rw [runAction_taskStack_of_occupied ops s actionLabel actionFn timeout now isIdle
      selfPrompting f he hf]
    rw [getTaskStackInfo_go_append]
    simp

/-- C8, counterexample: `A` was pushed at time 200 and `B` after it at time 300;
the snapshot lists `A` first and `B`, the most recently pushed, last. -/
theorem getTaskStackInfo_oldest_first :
    twoOnStack.am.taskStack
        = [{ label := some "A", actionFn := 1, timestamp := 200 },
           { label := some "B", actionFn := 2, timestamp := 300 }]
    ∧ (getTaskStackInfo (fun _ => 1000) twoOnStack).2
        = [{ label := some "A", timestamp := 200, age := 800 },
           { label := some "B", timestamp := 300, age := 700 }]
    ∧ (getTaskStackInfo (fun _ => 1000) twoOnStack).2.head?
        ≠ some { label := some "B", timestamp := 300, age := 700 } := by
  decide


/-- C8 at `runningA`: the entry pushed when `B` displaces `A` at time 200 is the
last record of the snapshot taken at time 1000. -/
theorem getTaskStackInfo_array_order_witness :
    (getTaskStackInfo (fun _ => 1000)
        (runAction exampleOps runningA (some "B") (some 2) none false 200 false false)).2
      = (getTaskStackInfo (fun _ => 1000) runningA).2
          ++ [({ label := runningA.am.currentActionLabel, timestamp := 200,
                 age := (fun _ => 1000) runningA.am.taskStack.length - 200 } : TaskInfo)] :=
  (getTaskStackInfo_array_order (fun _ => 1000) runningA).2.2.2
    exampleOps (some "B") (some 2) none 200 false false 1 (by decide) (by decide)

/-! ## The resume path -/

/-- A `resumeAction` with an override body starts that body at once, whatever
is running: `stop()` is not entered, no interrupt is requested, and the started
bodies are the earlier ones plus the new one. -/
theorem resumeAction_override_starts (ops : AgentOps) (s : Sys) (f : ActionFn)
    (timeout : Option Int) (isIdle selfPrompting : Bool) :
    (resumeAction ops s (some f) timeout isIdle selfPrompting).running
        = s.running ++
          [{ caller := Caller.executeActionDirect, actionFn := f,
             TIMEOUT := if resumeTimeout timeout > 0 then some s.nextHandle else none }]
    ∧ (resumeAction ops s (some f) timeout isIdle selfPrompting).stopWaits = s.stopWaits
    ∧ (resumeAction ops s (some f) timeout isIdle selfPrompting).bot = s.bot := by
  have hl : (resumeLabel s).isNone = false := by
    unfold resumeLabel
    split
    · split <;> rfl
    · rfl
  simp only [resumeAction, runAction, _executeResume, Option.orElse, Option.getD, Option.isSome, hl]
  by_cases ht : resumeTimeout timeout > 0 <;>
    simp [_executeActionDirect, _startTimeout, ht]

/-- Without an override and with an empty ResumeSlot, `resumeAction` declines:
the declined Result is returned and nothing else changes. -/
theorem resumeAction_declines_of_empty_slot (ops : AgentOps) (s : Sys) (timeout : Option Int)
    (isIdle selfPrompting : Bool) (h : s.am.resume_func = none) :
    resumeAction ops s none timeout isIdle selfPrompting
      = { s with results := s.results ++ [declined] } := by
  simp [resumeAction, runAction, _executeResume, Option.orElse, h]

/-- C1, at the failing input: `A` (body 1) is running in the slot when
`resumeAction` is called with the override body 2.  Body 2 is installed and
started while body 1 is still running: two bodies run at once, `stop()` was not
entered and no interrupt was requested from body 1. -/
theorem resumeAction_starts_second_body :
    runningA.running = [{ caller := Caller.executeAction, actionFn := 1, TIMEOUT := some 0 }]
    ∧ runningA.am.executing = true
    ∧ (step exampleOps runningA (Event.resumeAction (some 2) none false false)).running
        = [{ caller := Caller.executeAction, actionFn := 1, TIMEOUT := some 0 },
           { caller := Caller.executeActionDirect, actionFn := 2, TIMEOUT := some 1 }]
    ∧ (step exampleOps runningA (Event.resumeAction (some 2) none false false)).am.executing = true
    ∧ (step exampleOps runningA (Event.resumeAction (some 2) none false false)).am.currentActionFn
        = some 2
    ∧ (step exampleOps runningA (Event.resumeAction (some 2) none false false)).stopWaits = []
    ∧ (step exampleOps runningA (Event.resumeAction (some 2) none false false)).bot.interrupt_code
        = false := by
  decide

/-- C9, at the failing input: body 7 is running through the resume path, so the
ResumeSlot is non-empty and the executor is not idle; `resumeAction()` is called
with no override while the agent reports not idle and self-prompting.  No
declined Result is returned: body 7 is started a second time and a second timer
is armed. -/
theorem resumeAction_runs_when_not_idle :
    resumedRunning.am.resume_func = some 7
    ∧ resumedRunning.am.executing = true
    ∧ resumedRunning.running
        = [{ caller := Caller.executeActionDirect, actionFn := 7, TIMEOUT := some 0 }]
    ∧ (step exampleOps resumedRunning (Event.resumeAction none none false true)).results = []
    ∧ (step exampleOps resumedRunning (Event.resumeAction none none false true)).running
        = [{ caller := Caller.executeActionDirect, actionFn := 7, TIMEOUT := some 0 },
           { caller := Caller.executeActionDirect, actionFn := 7, TIMEOUT := some 1 }]
    ∧ (step exampleOps resumedRunning (Event.resumeAction none none false true)).timers
        = [{ handle := 0, mins := 10 }, { handle := 1, mins := 10 }]
    ∧ step exampleOps resumedRunning (Event.resumeAction none none false true) ≠ resumedRunning := by
  decide

/-! ## Timeout guard -/

/-- C5, at the failing input: `resumeAction(fn, 0)` arms a timer of 10 minutes,
because `timeout || 10` turns the 0 into 10; a negative timeout arms none, and
`runAction` with `timeout: 0` arms none on either path. -/
theorem resumeAction_zero_timeout_arms_timer :
    (resumeAction exampleOps Sys.init (some 7) (some 0) true false).timers
        = [{ handle := 0, mins := 10 }]
    ∧ (resumeAction exampleOps Sys.init (some 7) (some 0) true false).running
        = [{ caller := Caller.executeActionDirect, actionFn := 7, TIMEOUT := some 0 }]
    ∧ (resumeAction exampleOps Sys.init (some 7) (some (-5)) true false).timers = []
    ∧ (runAction exampleOps Sys.init (some "R") (some 7) (some 0) true 100 true false).timers = []
    ∧ (run exampleOps Sys.init
        [Event.runAction (some "A") (some 7) (some 0) false 100 true false,
         Event.stopWakes 0]).timers = [] := by
  decide

/-- C4, at the failing input: the timer of `A` fires while `A` runs; later `B`
is run and returns before its own timer fires (one timeout was recorded in all,
and the timer of `B` was disarmed).  Both Results report `timedout = true`. -/
theorem timedout_flag_is_sticky :
    (run exampleOps Sys.init timeoutThenQuick).results.map (fun r => (r.success, r.timedout))
        = [(true, true), (true, true)]
    ∧ (run exampleOps Sys.init timeoutThenQuick).history = [1]
    ∧ (run exampleOps Sys.init (timeoutThenQuick.take 7)).timers = [{ handle := 1, mins := 1 }]
    ∧ (run exampleOps Sys.init timeoutThenQuick).timers = []
    ∧ (run exampleOps Sys.init timeoutThenQuick).am.timedout = true := by
  decide

/-! ## The slot invariant -/

/-- The drain of the non-resume path: a request polling in `stop()` that wakes up
while something is still executing only requests the interrupt again; it
installs nothing. -/
theorem stopWakes_polling_waits (ops : AgentOps) (s : Sys) (i : Nat) (w : StopWait)
    (hw : s.stopWaits[i]? = some w) (hp : w.polling = true) (he : s.am.executing = true) :
    stopWakes ops s i = { s with bot := ops.requestInterrupt s.bot } := by
  simp [stopWakes, hw, hp, he]

/-- The `catch` of `_executeAction` frees the slot. -/
theorem _executeAction_catch_executing (ops : AgentOps) (s : Sys) (T : Option Nat) (err : Thrown) :
    (_executeAction_catch ops s T err).am.executing = false := by
  unfold _executeAction_catch
  cases err with
  | none => simp [cancelResume]
  | some text =>
    simp only [cancelResume]
    split <;> simp

/-- The normal end of `_executeAction` frees the slot. -/
theorem _executeAction_return_executing (ops : AgentOps) (s : Sys) (T : Option Nat) (b : Bool) :
    (_executeAction_return ops s T b).am.executing = false := by
  unfold _executeAction_return _tryResumeFromStack
  simp only []
  split <;> split <;> (try split) <;> simp_all

/-- The `catch` of `_executeActionDirect` frees the slot. -/
theorem _executeActionDirect_catch_executing (ops : AgentOps) (s : Sys) (T : Option Nat)
    (err : Thrown) :
    (_executeActionDirect_catch ops s T err).am.executing = false := by
  unfold _executeActionDirect_catch
  cases err with
  | none => simp
  | some text =>
    simp only [cancelResume]
    split <;> simp

/-- Starting a body directly records it. -/
theorem _executeActionDirect_slotOk (s : Sys) (l : Label) (f : ActionFn) (t : Int) :
    SlotOk (_executeActionDirect s l f t) := by
  unfold SlotOk _executeActionDirect
  split <;> simp [_startTimeout]

/-- The resume path keeps the slot invariant. -/
theorem _executeResume_slotOk (s : Sys) (l : Label) (f : Option ActionFn) (t : Int) (a b : Bool)
    (h : SlotOk s) : SlotOk (_executeResume s l f t a b) := by
  unfold _executeResume
  simp only []
  split
  · exact h
  · split
    · split
      · exact _executeActionDirect_slotOk _ _ _ _
      · split <;> exact h
    · split <;> exact h

/-- Every turn of the event loop keeps the slot invariant. -/
theorem step_slotOk (ops : AgentOps) (s : Sys) (e : Event) (h : SlotOk s) :
    SlotOk (step ops s e) := by
  unfold step
  split
  · exact h
  · cases e with
    | runAction l f t r n a b =>
      simp only [runAction]
      split
      · exact _executeResume_slotOk _ _ _ _ _ _ h
      · unfold SlotOk _executeAction at *
        simp only [stop_am]
        split <;> simpa using h
    | resumeAction f t a b =>
      simp only [resumeAction, runAction]
      exact _executeResume_slotOk _ _ _ _ _ _ h
    | stop => unfold SlotOk at *; simpa using h
    | cancelResume => exact h
    | clearTaskStack => exact h
    | stopWakes i =>
      simp only [stopWakes]
      split
      · exact h
      · split
        · exact h
        · split
          · exact h
          · rename_i l f t _
            unfold _executeAction_install
            cases f with
            | none =>
              intro he
              rw [_executeAction_catch_executing] at he
              exact absurd he (by simp)
            | some g =>
              unfold SlotOk
              simp only []
              split <;> simp [_startTimeout]
    | bodyReturns i a =>
      simp only [bodyReturns]
      split
      · exact h
      · split
        · intro he; rw [_executeAction_return_executing] at he; exact absurd he (by simp)
        · intro he; rw [_executeActionDirect_return_am] at he; exact absurd he (by simp)
    | bodyThrows i err =>
      simp only [bodyThrows]
      split
      · exact h
      · split
        · intro he; rw [_executeAction_catch_executing] at he; exact absurd he (by simp)
        · intro he; rw [_executeActionDirect_catch_executing] at he; exact absurd he (by simp)
    | timeoutFires hd =>
      simp only [timeoutFires]
      split
      · exact h
      · unfold SlotOk at *; simpa using h
    | resumeFires i a b =>
      simp only [resumeFires]
      split
      · exact h
      · split
        · simp only [runAction]
          exact _executeResume_slotOk _ _ _ _ _ _ h
        · exact h
    | killFires =>
      show SlotOk (killFires s)
      unfold killFires; split <;> exact h
    | botOutput t => exact h

/-- Every sequence of turns keeps the slot invariant. -/
theorem run_slotOk (ops : AgentOps) (es : List Event) (s : Sys) (h : SlotOk s) :
    SlotOk (run ops s es) := by
  induction es generalizing s with
  | nil => exact h
  | cons e rest ih => exact ih _ (step_slotOk ops s e h)

/-- In every state reached from a fresh manager, `executing` implies that a body
is recorded: the test `this.executing && this.currentActionFn` of the push is
the test `this.executing`. -/
theorem reachable_slotOk (ops : AgentOps) (es : List Event) : SlotOk (run ops Sys.init es) :=
  run_slotOk ops es Sys.init (by intro h; exact absurd h (by decide))

/-! ## Where the auto-resume pop happens -/

/-- The `catch` of `_executeAction` pops nothing and schedules nothing. -/
theorem _executeAction_catch_noPop (ops : AgentOps) (s : Sys) (TIMEOUT : Option Nat)
    (err : Thrown) :
    (_executeAction_catch ops s TIMEOUT err).am.taskStack = s.am.taskStack
    ∧ (_executeAction_catch ops s TIMEOUT err).scheduled = s.scheduled
    ∧ (_executeAction_catch ops s TIMEOUT err).resumeLog = s.resumeLog := by
  unfold _executeAction_catch
  cases err with
  | none => simp [cancelResume]
  | some text =>
    simp only [cancelResume]
    refine ⟨?_, ?_, ?_⟩ <;> (split <;> simp)

/-- The `catch` of `_executeActionDirect` pops nothing and schedules nothing. -/
theorem _executeActionDirect_catch_noPop (ops : AgentOps) (s : Sys) (TIMEOUT : Option Nat)
    (err : Thrown) :
    (_executeActionDirect_catch ops s TIMEOUT err).am.taskStack = s.am.taskStack
    ∧ (_executeActionDirect_catch ops s TIMEOUT err).scheduled = s.scheduled
    ∧ (_executeActionDirect_catch ops s TIMEOUT err).resumeLog = s.resumeLog := by
  unfold _executeActionDirect_catch
  cases err with
  | none => simp
  | some text =>
    simp only [cancelResume]
    refine ⟨?_, ?_, ?_⟩ <;> (split <;> simp)

/-- When the agent is not idle `_tryResumeFromStack` does nothing. -/
theorem _tryResumeFromStack_of_busy (s : Sys) : _tryResumeFromStack s false = s := by
  unfold _tryResumeFromStack
  simp

/-- When the agent is not idle the normal end of `_executeAction` pops nothing. -/
theorem _executeAction_return_noPop_of_busy (ops : AgentOps) (s : Sys) (TIMEOUT : Option Nat) :
    (_executeAction_return ops s TIMEOUT false).am.taskStack = s.am.taskStack
    ∧ (_executeAction_return ops s TIMEOUT false).scheduled = s.scheduled
    ∧ (_executeAction_return ops s TIMEOUT false).resumeLog = s.resumeLog := by
  unfold _executeAction_return
  simp only [_tryResumeFromStack_of_busy]
  refine ⟨?_, ?_, ?_⟩ <;> (split <;> simp)

/-- Starting a body directly logs no resume attempt. -/
theorem _executeActionDirect_resumeLog (s : Sys) (l : Label) (f : ActionFn) (t : Int) :
    (_executeActionDirect s l f t).resumeLog = s.resumeLog := by
  unfold _executeActionDirect
  split <;> simp [_startTimeout]

/-- The resume path logs no resume attempt. -/
theorem _executeResume_resumeLog (s : Sys) (l : Label) (f : Option ActionFn) (t : Int)
    (a b : Bool) : (_executeResume s l f t a b).resumeLog = s.resumeLog := by
  unfold _executeResume
  simp only []
  split
  · rfl
  · split
    · split
      · rw [_executeActionDirect_resumeLog]; split <;> rfl
      · split <;> rfl
    · split <;> rfl

/-- A `runAction` on the resume path logs no resume attempt. -/
theorem runAction_resume_resumeLog (ops : AgentOps) (s : Sys) (l : Label) (f : Option ActionFn)
    (t : Option Int) (n : Int) (a b : Bool) :
    (runAction ops s l f t true n a b).resumeLog = s.resumeLog := by
  simp [runAction, _executeResume_resumeLog]

/-- Installing a requested action logs no resume attempt. -/
theorem _executeAction_install_resumeLog (ops : AgentOps) (s : Sys) (l : Label)
    (f : Option ActionFn) (t : Int) :
    (_executeAction_install ops s l f t).resumeLog = s.resumeLog := by
  unfold _executeAction_install
  cases f with
  | none =>
    simp only []
    rw [(_executeAction_catch_noPop ops _ _ _).2.2]
    split <;> simp [_startTimeout]
  | some g =>
    simp only []
    split <;> simp [_startTimeout]

/-- The callback of the timeout timer pops nothing and schedules nothing. -/
theorem timeoutFires_noPop (ops : AgentOps) (s : Sys) (handle : Nat) :
    (timeoutFires ops s handle).am.taskStack = s.am.taskStack
    ∧ (timeoutFires ops s handle).scheduled = s.scheduled
    ∧ (timeoutFires ops s handle).resumeLog = s.resumeLog := by
  unfold timeoutFires
  split <;> simp

/-- A turn that logs a resume attempt is the normal return of a body started by
`_executeAction`, with the agent idle. -/
theorem step_resumeLog_changes (ops : AgentOps) (s : Sys) (e : Event)
    (h : (step ops s e).resumeLog ≠ s.resumeLog) :
    ∃ i r, e = Event.bodyReturns i true ∧ s.running[i]? = some r
      ∧ r.caller = Caller.executeAction := by
  unfold step at h
  split at h
  · exact absurd rfl h
  · cases e with
    | runAction l f t r n a b =>
      exfalso; apply h
      simp only [runAction]
      split
      · exact _executeResume_resumeLog _ _ _ _ _ _
      · unfold _executeAction
        simp only [stop_resumeLog]
        split <;> rfl
    | resumeAction f t a b =>
      exfalso; apply h
      simp only [resumeAction, runAction]
      exact _executeResume_resumeLog _ _ _ _ _ _
    | stop => exfalso; apply h; simp
    | cancelResume => exact absurd rfl h
    | clearTaskStack => exact absurd rfl h
    | stopWakes i =>
      exfalso; apply h
      simp only [stopWakes]
      split
      · rfl
      · split
        · rfl
        · split
          · rfl
          · rw [_executeAction_install_resumeLog]
    | bodyReturns i a =>
      simp only [bodyReturns] at h
      cases hr : s.running[i]? with
      | none => rw [hr] at h; exact absurd rfl h
      | some r =>
        rw [hr] at h
        simp only [] at h
        cases hc : r.caller with
        | executeActionDirect =>
          rw [hc] at h
          simp only [_executeActionDirect_return_resumeLog] at h
          exact absurd rfl h
        | executeAction =>
          cases a with
          | false =>
            rw [hc] at h
            simp only [(_executeAction_return_noPop_of_busy ops _ _).2.2] at h
            exact absurd rfl h
          | true => exact ⟨i, r, rfl, hr, hc⟩
    | bodyThrows i err =>
      exfalso; apply h
      simp only [bodyThrows]
      split
      · rfl
      · split
        · rw [(_executeAction_catch_noPop ops _ _ _).2.2]
        · rw [(_executeActionDirect_catch_noPop ops _ _ _).2.2]
    | timeoutFires hd =>
      exfalso; apply h
      exact (timeoutFires_noPop ops s hd).2.2
    | resumeFires i a b =>
      exfalso; apply h
      simp only [resumeFires]
      split
      · rfl
      · split
        · rw [runAction_resume_resumeLog]
        · rfl
    | killFires =>
      exfalso; apply h
      show (killFires s).resumeLog = s.resumeLog
      unfold killFires; split <;> rfl
    | botOutput t => exact absurd rfl h

/-- C11 (amended): the callback of the timeout timer pops nothing and schedules
no resume, and neither does the termination of an execution by a thrown
failure; but the pop does not look at the `timedout` flag: with the flag set
and entries `rest ++ [top]` on the stack, the termination step of an execution
whose body returns normally while the agent is idle pops `top` and schedules its
resume (while the agent is not idle it pops nothing).  A resume attempt is
logged only in the step right after the body of a non-resume action returned
normally. -/
theorem pop_only_on_normal_return (ops : AgentOps) (s : Sys) :
    (∀ handle : Nat,
        (timeoutFires ops s handle).am.taskStack = s.am.taskStack
        ∧ (timeoutFires ops s handle).scheduled = s.scheduled
        ∧ (timeoutFires ops s handle).resumeLog = s.resumeLog)
    ∧ (∀ (TIMEOUT : Option Nat) (err : Thrown),
        (_executeAction_catch ops s TIMEOUT err).am.taskStack = s.am.taskStack
        ∧ (_executeAction_catch ops s TIMEOUT err).scheduled = s.scheduled
        ∧ (_executeAction_catch ops s TIMEOUT err).resumeLog = s.resumeLog)
    ∧ (∀ (TIMEOUT : Option Nat) (rest : List TaskEntry) (top : TaskEntry),
        s.am.timedout = true → s.am.taskStack = rest ++ [top] →
        (_executeAction_return ops s TIMEOUT true).am.taskStack = rest
        ∧ (_executeAction_return ops s TIMEOUT true).scheduled = s.scheduled ++ [top]
        ∧ (_executeAction_return ops s TIMEOUT true).resumeLog = s.resumeLog ++ [top.label])
    ∧ (∀ e : Event, (step ops s e).resumeLog ≠ s.resumeLog →
        ∃ i r, e = Event.bodyReturns i true ∧ s.running[i]? = some r
          ∧ r.caller = Caller.executeAction)
    ∧ (∀ TIMEOUT : Option Nat,
        (_executeAction_return ops s TIMEOUT false).am.taskStack = s.am.taskStack
        ∧ (_executeAction_return ops s TIMEOUT false).scheduled = s.scheduled
        ∧ (_executeAction_return ops s TIMEOUT false).resumeLog = s.resumeLog) := by
  refine ⟨timeoutFires_noPop ops s, _executeAction_catch_noPop ops s, ?_,
    step_resumeLog_changes ops s, _executeAction_return_noPop_of_busy ops s⟩
  intro TIMEOUT rest top _ hs
  obtain ⟨ha, hb, hc, _⟩ := _executeAction_return_pop ops s TIMEOUT rest top hs
  exact ⟨by rw [ha], hb, hc⟩

/-- C11 at `timedOutOnStack`: the timed-out `B` returns normally and `A` is
popped and scheduled; and the turn that logged the attempt is that return. -/
theorem pop_only_on_normal_return_witness :
    ((_executeAction_return exampleOps timedOutOnStack (some 1) true).am.taskStack = []
      ∧ (_executeAction_return exampleOps timedOutOnStack (some 1) true).scheduled
          = timedOutOnStack.scheduled ++ [{ label := some "A", actionFn := 1, timestamp := 200 }]
      ∧ (_executeAction_return exampleOps timedOutOnStack (some 1) true).resumeLog
          = timedOutOnStack.resumeLog ++ [some "A"])
    ∧ ∃ i r, Event.bodyReturns 0 true = Event.bodyReturns i true
        ∧ timedOutOnStack.running[i]? = some r ∧ r.caller = Caller.executeAction :=
  ⟨(pop_only_on_normal_return exampleOps timedOutOnStack).2.2.1 (some 1) []
      { label := some "A", actionFn := 1, timestamp := 200 } (by decide) (by decide),
   (pop_only_on_normal_return exampleOps timedOutOnStack).2.2.2.1 (Event.bodyReturns 0 true)
      (by decide)⟩

/-- C11, counterexample: the timer of the running `B` has fired (the flag is
set, one timeout is recorded) and `A` is on the stack; `B` then returns
normally.  This termination step empties the stack and schedules the resume of
`A`. -/
theorem timed_out_return_pops :
    timedOutOnStack.am.timedout = true
    ∧ timedOutOnStack.history = [1]
    ∧ timedOutOnStack.running
        = [{ caller := Caller.executeAction, actionFn := 2, TIMEOUT := some 1 }]
    ∧ timedOutOnStack.am.taskStack = [{ label := some "A", actionFn := 1, timestamp := 200 }]
    ∧ timedOutOnStack.scheduled = []
    ∧ (step exampleOps timedOutOnStack (Event.bodyReturns 0 true)).am.taskStack = []
    ∧ (step exampleOps timedOutOnStack (Event.bodyReturns 0 true)).am.taskStack
        ≠ timedOutOnStack.am.taskStack
    ∧ (step exampleOps timedOutOnStack (Event.bodyReturns 0 true)).scheduled
        = [{ label := some "A", actionFn := 1, timestamp := 200 }]
    ∧ (step exampleOps timedOutOnStack (Event.bodyReturns 0 true)).resumeLog = [some "A"] := by
  decide

end Mindcraft
